import Mathlib

/-
  Verification of the serpfree SERP-scraper's task scheduler and
  resource-pool manager, as a shallow embedding in Lean.

  The repository contains several iterations of the same scraper design.
  The definitions below are translated from:
  * src/src/scraper-provider/index.ts            (first facade iteration)
  * src/unnamed/part_002                         (retry/reset iteration)
  * src/src/scraper-provider/GoogleSERPContext.ts, lines 439-1714
                                                 (final SERPScraper variant)
  * src/src/controllers/serp-controller.ts       (HTTP admission layer)
  Each definition's doc comment names the function and lines it embeds.
-/

namespace Serp

/-- Search engines supported by the scraper
(`SearchEngine` enum, src/src/scraper-provider/index.ts lines 8-13). -/
inductive SearchEngine where
  | google
  | bing
  | duckduckgo
  | yahoo
deriving DecidableEq, Repr

/-- One extracted record (`SearchResult` interface,
src/src/scraper-provider/index.ts lines 15-21). -/
structure SearchResult where
  domain : String
  title : String
  link : String
  description : String
  rank : Nat
deriving DecidableEq, Repr

/-- JS `String.prototype.trim` (drop whitespace from both ends), as a
structurally recursive function on the string's character list. -/
def trimString (s : String) : String :=
  String.mk (((s.data.dropWhile Char.isWhitespace).reverse.dropWhile
    Char.isWhitespace).reverse)

/-- One DOM result element as seen by the extraction loop: the optional
`h3` title text, `a` href attribute and description text (a field is `none`
when the corresponding element is missing from the result block). -/
structure RawEntry where
  title : Option String
  link : Option String
  description : Option String
deriving DecidableEq, Repr

/-- The `page.evaluate` extraction loop shared by `processGoogleResults`
(src/src/scraper-provider/index.ts lines 449-484) and `processBingResults`
(lines 501-534): walk the result elements in page order keeping a `rank`
counter starting at 1; an element is emitted only when all three
sub-elements exist, title/description trim to non-empty text, the href is
non-empty, and `new URL(link)` parses (modelled by the external parser
`parseHost`, which returns the hostname); a failed URL parse skips the
entry without incrementing `rank`. -/
def extractLoop (parseHost : String → Option String) :
    List RawEntry → Nat → List SearchResult
  | [], _ => []
  | e :: rest, rank =>
    match e.title, e.link, e.description with
    | some t, some l, some d =>
      let title := trimString t
      let link := l
      let description := trimString d
      if title ≠ "" ∧ link ≠ "" ∧ description ≠ "" then
        match parseHost link with
        | some domain =>
            { domain := domain, title := title, link := link,
              description := description, rank := rank }
              :: extractLoop parseHost rest (rank + 1)
        | none => extractLoop parseHost rest rank
      else extractLoop parseHost rest rank
    | _, _, _ => extractLoop parseHost rest rank

/-- `SERPScraper.processGoogleResults` page-evaluate body
(src/src/scraper-provider/index.ts lines 449-484): rank starts at 1. -/
def processGoogleResults (parseHost : String → Option String)
    (entries : List RawEntry) : List SearchResult :=
  extractLoop parseHost entries 1

/-- `SERPScraper.processBingResults` page-evaluate body
(src/src/scraper-provider/index.ts lines 501-534); the loop is identical
to the Google one up to the CSS selectors that produce the entries. -/
def processBingResults (parseHost : String → Option String)
    (entries : List RawEntry) : List SearchResult :=
  extractLoop parseHost entries 1

/-! ## Facade admission (`SERPScraper.search`) -/

/-- A task in the facade's queue (`SearchTask` interface,
src/src/scraper-provider/index.ts lines 23-31 / src/unnamed/part_002
lines 20-29; the `abortController` signal is set exactly when `cancelled`
is set, so the model keeps the single `cancelled` flag). -/
structure SearchTask where
  id : Nat
  query : String
  searchEngine : SearchEngine
  cancelled : Bool
  retries : Nat
deriving DecidableEq, Repr

/-- Admission-relevant scraper state for `SERPScraper.search`. -/
structure ScraperState where
  browserLaunched : Bool
  ready : Bool
  taskQueue : List SearchTask
  maxQueueSize : Nat
deriving DecidableEq, Repr

inductive SearchError where
  | queueFull
deriving DecidableEq, Repr

/-- Synchronous outcome of a `search` call. -/
inductive SearchOutcome where
  | notLaunched
  | rejected (e : SearchError)
  | enqueued (taskId : Nat)
deriving DecidableEq, Repr

/-- `SERPScraper.search` admission path (src/src/scraper-provider/index.ts
lines 267-303, identical in src/unnamed/part_002 lines 635-670): when the
browser is absent the call first awaits `launchBrowser` and retries
(`notLaunched` marks that path); when `taskQueue.length >= maxQueueSize`
it throws the queue-full error before constructing a task; otherwise it
creates the task with `cancelled: false`, `retries: 0` and pushes it onto
the queue.  No validation of `query` or `searchEngine` is performed. -/
def SERPScraperSearch (s : ScraperState) (query : String)
    (engine : SearchEngine) (newId : Nat) : ScraperState × SearchOutcome :=
  if s.browserLaunched = false then
    (s, SearchOutcome.notLaunched)
  else if s.maxQueueSize ≤ s.taskQueue.length then
    (s, SearchOutcome.rejected SearchError.queueFull)
  else
    ({ s with taskQueue := s.taskQueue ++
        [{ id := newId, query := query, searchEngine := engine,
           cancelled := false, retries := 0 }] },
     SearchOutcome.enqueued newId)

/-! ## HTTP admission layer (serp-controller.ts) -/

/-- A validation issue reported by the zod `SearchSchema`
(src/src/controllers/serp-controller.ts lines 9-14). -/
inductive SchemaIssue where
  | queryEmpty
  | invalidProvider
deriving DecidableEq, Repr

/-- The provider strings accepted by `SearchSchema`'s enum
(src/src/controllers/serp-controller.ts line 11). -/
def supportedProviders : List String :=
  ["google", "bing", "yahoo", "duckduckgo"]

/-- `SearchSchema.safeParse` issue list: `query` must have min length 1,
`provider` must be one of the four supported strings
(src/src/controllers/serp-controller.ts lines 9-14). -/
def searchSchemaIssues (query provider : String) : List SchemaIssue :=
  (if query.length < 1 then [SchemaIssue.queryEmpty] else []) ++
    (if provider ∈ supportedProviders then [] else [SchemaIssue.invalidProvider])

/-- `getSearchEngine` provider-string mapping
(src/src/controllers/serp-controller.ts lines 17-30); the `default`
branch throws, modelled as `none`. -/
def getSearchEngine (provider : String) : Option SearchEngine :=
  if provider = "google" then some SearchEngine.google
  else if provider = "bing" then some SearchEngine.bing
  else if provider = "duckduckgo" then some SearchEngine.duckduckgo
  else if provider = "yahoo" then some SearchEngine.yahoo
  else none

/-- HTTP response produced by the controller's `search` handler. -/
inductive ControllerResponse where
  | badRequest (issues : List SchemaIssue)
  | scraperNotReady
  | accepted (taskId : Nat)
  | serverError
deriving DecidableEq, Repr

/-- The controller `search` handler's admission sequence
(src/src/controllers/serp-controller.ts lines 33-62): validate the body
against `SearchSchema` (400 with the issues when it fails, before the
scraper is touched), check `scraper.isReady()` (503), map the provider,
then call `scraper.search`. -/
def controllerSearch (s : ScraperState) (query provider : String)
    (newId : Nat) : ScraperState × ControllerResponse :=
  let issues := searchSchemaIssues query provider
  if issues ≠ [] then
    (s, ControllerResponse.badRequest issues)
  else if s.ready = false then
    (s, ControllerResponse.scraperNotReady)
  else
    match getSearchEngine provider with
    | none => (s, ControllerResponse.serverError)
    | some engine =>
      match SERPScraperSearch s query engine newId with
      | (s1, SearchOutcome.enqueued tid) => (s1, ControllerResponse.accepted tid)
      | (s1, _) => (s1, ControllerResponse.serverError)

/-! ## Transient-failure retry policy (src/unnamed/part_002) -/

/-- `MAX_RETRIES` constant (src/unnamed/part_002 line 49, and
src/src/scraper-provider/GoogleSERPContext.ts line 496). -/
def MAX_RETRIES : Nat := 2

/-- The "max retries reached" rejection message
(src/unnamed/part_002 lines 601-605). -/
def maxRetriesMessage (errMsg : String) : String :=
  "Max retries (" ++ toString MAX_RETRIES ++ ") reached: " ++ errMsg

/-- `executeSearch` catch-branch for a non-captcha, non-cancelled failure
(src/unnamed/part_002 lines 591-607): when `task.retries < MAX_RETRIES`
the retry counter is incremented and the task is `unshift`ed onto the
front of the queue (no rejection); otherwise the task is rejected with the
max-retries message wrapping the current error. -/
def executeSearchOnTransientError (task : SearchTask) (errMsg : String)
    (taskQueue : List SearchTask) : List SearchTask × Option String :=
  if task.retries < MAX_RETRIES then
    ({ task with retries := task.retries + 1 } :: taskQueue, none)
  else
    (taskQueue, some (maxRetriesMessage errMsg))

/-- Execution trace of one task whose every attempt fails transiently
(src/unnamed/part_002): attempt number `attempts` fails with message
`errs attempts`, the failure is handled by `executeSearchOnTransientError`,
and a requeued task is dispatched again.  Returns the total number of
attempts made together with the final rejection message (`none` only if
the fuel runs out before the task settles). -/
def runAlwaysFailing (errs : Nat → String) :
    Nat → SearchTask → Nat → Nat × Option String
  | 0, _, attempts => (attempts, none)
  | fuel + 1, task, attempts =>
    match executeSearchOnTransientError task (errs attempts) [] with
    | ([t], none) => runAlwaysFailing errs fuel t (attempts + 1)
    | (_, some msg) => (attempts + 1, some msg)
    | (_, none) => (attempts + 1, none)

/-! ## Final variant: Google-context reset, dispatch and captcha handling
(src/src/scraper-provider/GoogleSERPContext.ts lines 439-1714) -/

/-- `TaskPriority.NORMAL` (GoogleSERPContext.ts line 489). -/
def NORMAL_PRIORITY : Nat := 0

/-- `TaskPriority.GOOGLE_TASK`, the boosted priority given to Google
tasks held across a captcha reset (GoogleSERPContext.ts line 490). -/
def GOOGLE_TASK_PRIORITY : Nat := 1

/-- A task of the final variant (`SearchTask` interface,
GoogleSERPContext.ts lines 458-469; the promise callbacks and the abort
token are represented by the task's scheduling fields — the token is
signalled exactly when `cancelled` is set). -/
structure GTask where
  id : Nat
  searchEngine : SearchEngine
  cancelled : Bool
  retries : Nat
  priority : Nat
deriving DecidableEq, Repr

/-- Scheduler state of the final variant that the reset / dispatch /
captcha logic reads and writes: the main queue, the pending-Google
holding area, and the single `googleContextResetting` flag
(GoogleSERPContext.ts lines 502-514). -/
structure GState where
  taskQueue : List GTask
  pendingGoogleTasks : List GTask
  googleContextResetting : Bool
deriving DecidableEq, Repr

/-- How one `executeSearch` run settles the task's promise. -/
inductive ExecOutcome where
  | resolved
  | rejected (msg : String)
  | held
deriving DecidableEq, Repr

/-- The captcha branch of `executeSearch`
(GoogleSERPContext.ts lines 1370-1392): when `captchaDetected` and the
task targets Google, a copy of the task with `priority: GOOGLE_TASK` and
`retries: 0` is pushed into `pendingGoogleTasks` (unless the task is
cancelled), a reset is scheduled, and the function returns early without
resolving or rejecting the task (`held`).  `none` means the branch is not
taken and execution continues. -/
def executeSearchCaptchaBranch (s : GState) (task : GTask)
    (captchaDetected : Bool) : Option (GState × ExecOutcome) :=
  if captchaDetected = true ∧ task.searchEngine = SearchEngine.google then
    let s1 :=
      if task.cancelled = false then
        { s with pendingGoogleTasks := s.pendingGoogleTasks ++
            [{ task with priority := GOOGLE_TASK_PRIORITY, retries := 0 }] }
      else s
    some (s1, ExecOutcome.held)
  else
    none

/-- The synchronous entry of `resetGoogleContext`
(GoogleSERPContext.ts lines 737-767): a second call while
`googleContextResetting` is already true is a no-op (lines 739-742);
otherwise the flag is set, every non-cancelled Google task still in the
main queue is drained into `pendingGoogleTasks` with boosted priority and
`retries: 0` (lines 750-767). -/
def beginResetGoogleContext (s : GState) : GState :=
  if s.googleContextResetting = true then
    s
  else
    let googleTasksInQueue := s.taskQueue.filter
      (fun task => task.searchEngine = SearchEngine.google ∧ task.cancelled = false)
    let remaining := s.taskQueue.filter
      (fun task => ¬ task.searchEngine = SearchEngine.google ∨ task.cancelled = true)
    { taskQueue := remaining
      pendingGoogleTasks := s.pendingGoogleTasks ++
        googleTasksInQueue.map
          (fun task => { task with priority := GOOGLE_TASK_PRIORITY, retries := 0 })
      googleContextResetting := true }

/-- The completion of `resetGoogleContext` after the new context passes
its test (GoogleSERPContext.ts lines 806-821 and the `finally` at 836):
all held tasks that are not cancelled are `unshift`ed onto the front of
the main queue, the holding area is emptied and the resetting flag is
cleared. -/
def finishResetGoogleContext (s : GState) : GState :=
  let tasksToRequeue := s.pendingGoogleTasks
  { taskQueue := (tasksToRequeue.filter (fun task => task.cancelled = false))
      ++ s.taskQueue
    pendingGoogleTasks := []
    googleContextResetting := false }

/-- Stable insertion used to model the JS `taskQueue.sort((a, b) =>
b.priority - a.priority)` of `processQueue` (GoogleSERPContext.ts line
1228): descending priority, ties keeping original order (`Array.sort` is
stable). -/
def insertByPriority (t : GTask) : List GTask → List GTask
  | [] => [t]
  | u :: rest =>
    if u.priority ≤ t.priority then t :: u :: rest
    else u :: insertByPriority t rest

/-- The queue after `taskQueue.sort((a, b) => b.priority - a.priority)`
(GoogleSERPContext.ts line 1228), as a stable descending sort. -/
def sortByPriority (q : List GTask) : List GTask :=
  q.foldr insertByPriority []

/-- Result of one iteration of the dispatch loop. -/
inductive DispatchResult where
  | emptyQueue
  | blockedOnReset (t : GTask)
  | dispatched (t : GTask)
deriving DecidableEq, Repr

/-- One iteration of the `processQueue` dispatch loop
(GoogleSERPContext.ts lines 1227-1257): sort the queue by descending
priority, reject and drop every cancelled task, stop if the queue is then
empty; shift the first task; if it targets Google while
`googleContextResetting` is set, `unshift` it back and stop the pass
(lines 1249-1257); otherwise the task is dispatched. -/
def processQueueStep (s : GState) : GState × DispatchResult :=
  let sorted := sortByPriority s.taskQueue
  let valid := sorted.filter (fun task => task.cancelled = false)
  match valid with
  | [] => ({ s with taskQueue := [] }, DispatchResult.emptyQueue)
  | t :: rest =>
    if t.searchEngine = SearchEngine.google ∧ s.googleContextResetting = true then
      ({ s with taskQueue := t :: rest }, DispatchResult.blockedOnReset t)
    else
      ({ s with taskQueue := rest }, DispatchResult.dispatched t)

/-- The connection-error branch of the final variant's `executeSearch`
catch handler (GoogleSERPContext.ts lines 1441-1465): for a "Protocol
error" / "Target closed" / "Connection closed" failure of a non-cancelled
task with `retries < MAX_RETRIES`, the retry counter is incremented and
the task is `push`ed onto the BACK of the queue (no rejection); past the
budget the task is rejected with the wrapped message; a cancelled task is
left alone. -/
def executeSearchOnConnectionError (s : GState) (task : GTask)
    (errMsg : String) : GState × Option String :=
  if task.cancelled = false ∧ task.retries < MAX_RETRIES then
    ({ s with taskQueue := s.taskQueue ++
        [{ task with retries := task.retries + 1 }] }, none)
  else if task.cancelled = false then
    (s, some ("Search failed: " ++ errMsg))
  else
    (s, none)

/-! ## The cancel closure returned by `search` -/

/-- State visible to the cancel closure: the main queue plus the tasks
that the dispatch loop has already shifted out of the queue and bound to
a tab (`Running` tasks live only in the closure of `executeSearch`; the
queue no longer contains them). -/
structure CState where
  taskQueue : List GTask
  running : List GTask
deriving DecidableEq, Repr

/-- The `cancel` closure returned by `search`
(src/src/scraper-provider/index.ts lines 305-313, src/unnamed/part_002
lines 672-680, GoogleSERPContext.ts lines 1544-1552): it looks the task
up with `this.taskQueue.find((t) => t.id === taskId)` and, only when
found there, sets its `cancelled` flag and aborts its token.  A task that
has already been shifted out of the queue (Running) is not found, and the
closure does nothing. -/
def cancelClosure (s : CState) (taskId : Nat) : CState :=
  match s.taskQueue.find? (fun t => t.id = taskId) with
  | some _ =>
    { s with taskQueue := (s.taskQueue.map
        (fun t => if t.id = taskId then { t with cancelled := true } else t)) }
  | none => s

/-- The settling behaviour of `executeSearch` for a task that reaches
execution (GoogleSERPContext.ts lines 1329-1423): every cancellation
check reads `task.cancelled || task.abortController.signal.aborted`
(the two are set together by `cancel`); with no cancellation and no
captcha the task is resolved with the extracted results. -/
def executeSearchRun (task : GTask) (captchaDetected : Bool) : ExecOutcome :=
  if task.cancelled = true then
    ExecOutcome.rejected "Request cancelled"
  else if captchaDetected = true ∧ task.searchEngine = SearchEngine.google then
    ExecOutcome.held
  else
    ExecOutcome.resolved

/-! ## Tab pool state machine (worker capacity) -/

/-- The two Sessions of the final variant: the default browsing context
and the isolated Google incognito context (`contextType` field,
GoogleSERPContext.ts lines 471-476). -/
inductive ContextType where
  | defaultCtx
  | google
deriving DecidableEq, Repr

/-- A pooled tab (`TabPool` interface, GoogleSERPContext.ts lines
471-476; `page` and `lastUsed` are irrelevant to the capacity claims). -/
structure Tab where
  busy : Bool
  contextType : ContextType
deriving DecidableEq, Repr

/-- Per-context tab capacity (`maxTabsForContext`, GoogleSERPContext.ts
lines 942-945): `Math.max(1, Math.floor(maxTabs / 2))` for the Google
context and `Math.max(1, maxTabs - Math.floor(maxTabs / 2))` for the
default context. -/
def maxTabsForContext (maxTabs : Nat) : ContextType → Nat
  | ContextType.google => max 1 (maxTabs / 2)
  | ContextType.defaultCtx => max 1 (maxTabs - maxTabs / 2)

/-- Pool state: the configured global cap and the tab pool. -/
structure PoolState where
  maxTabs : Nat
  tabPool : List Tab
deriving DecidableEq, Repr

/-- The tabs of one context type (the
`this.tabPool.filter((tab) => tab.contextType === contextType)` pattern,
GoogleSERPContext.ts lines 931-934). -/
def tabsOfType (pool : List Tab) (ct : ContextType) : List Tab :=
  pool.filter (fun t => t.contextType = ct)

/-- The busy tabs of one context type. -/
def busyTabsOfType (pool : List Tab) (ct : ContextType) : List Tab :=
  pool.filter (fun t => t.contextType = ct ∧ t.busy = true)

/-- All busy tabs (the `busyTabs` count of `getStatus`,
GoogleSERPContext.ts line 1638). -/
def busyTabs (pool : List Tab) : List Tab :=
  pool.filter (fun t => t.busy = true)

/-- Pool transitions of the final variant.  Each constructor embeds one
code path of GoogleSERPContext.ts that mutates `tabPool` or a `busy`
flag:
* `createTab` — `getAvailableTab` creates a tab only when the per-context
  count is below `maxTabsForContext` (lines 948-1000);
* `markBusy` — `processQueue` marks the acquired tab busy (lines
  1266-1268);
* `release` — the `finally` of the spawned execution frees it (lines
  1275-1278);
* `launchBrowser` — browser initialization resets the pool and pushes the
  initial default tab (lines 579-593);
* `createGoogleContext` — pushes one Google tab onto the pool with NO
  capacity check and no removal of existing Google tabs (lines 626-657);
  it is called from `launchBrowser` (line 596), from `resetGoogleContext`
  (line 801), from `recoveryCheck` (line 856, reached after any transient
  connection error via `executeSearch` lines 1450-1456), and from
  `ensureGoogleContext` (line 691, reached from `getAvailableTab` line
  921 when the stored context has become invalid);
* `resetGoogleContext` — recovery closes and removes every Google tab
  (lines 769-795) before calling `createGoogleContext` to seed the new
  context;
* `closeTab` — idle cleanup / `closeTabs` removes a tab (lines
  1059-1073);
* `closeBrowser` — shutdown clears the pool (lines 1656-1710). -/
inductive PoolStep : PoolState → PoolState → Prop where
  | createTab (s : PoolState) (ct : ContextType)
      (h : (tabsOfType s.tabPool ct).length < maxTabsForContext s.maxTabs ct) :
      PoolStep s { s with tabPool := s.tabPool ++ [{ busy := false, contextType := ct }] }
  | markBusy (s : PoolState) (l₁ l₂ : List Tab) (ct : ContextType)
      (h : s.tabPool = l₁ ++ { busy := false, contextType := ct } :: l₂) :
      PoolStep s { s with tabPool := l₁ ++ { busy := true, contextType := ct } :: l₂ }
  | release (s : PoolState) (l₁ l₂ : List Tab) (ct : ContextType)
      (h : s.tabPool = l₁ ++ { busy := true, contextType := ct } :: l₂) :
      PoolStep s { s with tabPool := l₁ ++ { busy := false, contextType := ct } :: l₂ }
  | launchBrowser (s : PoolState) :
      PoolStep s { s with tabPool :=
        [{ busy := false, contextType := ContextType.defaultCtx }] }
  | createGoogleContext (s : PoolState) :
      PoolStep s { s with tabPool :=
        s.tabPool ++ [{ busy := false, contextType := ContextType.google }] }
  | resetGoogleContext (s : PoolState) :
      PoolStep s { s with tabPool :=
        (s.tabPool.filter (fun t => ¬ t.contextType = ContextType.google)) }
  | closeTab (s : PoolState) (l₁ l₂ : List Tab) (t : Tab)
      (h : s.tabPool = l₁ ++ t :: l₂) :
      PoolStep s { s with tabPool := l₁ ++ l₂ }
  | closeBrowser (s : PoolState) :
      PoolStep s { s with tabPool := [] }

/-- The constructor's state (GoogleSERPContext.ts lines 517-522):
`maxTabs = Math.max(1, maxTabs)`, empty pool. -/
def initialPool (maxTabs : Nat) : PoolState :=
  { maxTabs := max 1 maxTabs, tabPool := [] }

/-- Reachability of a pool state from the constructor's state. -/
def PoolReachable (maxTabs : Nat) (s : PoolState) : Prop :=
  Relation.ReflTransGen PoolStep (initialPool maxTabs) s

/-- The capacity bound that survives: only the default context's tab
count is capped, because default tabs are created solely through
`getAvailableTab`'s guarded path and the browser-launch seed, whereas
Google tabs are also pushed unconditionally by `createGoogleContext`. -/
def PoolInv (s : PoolState) : Prop :=
  (tabsOfType s.tabPool ContextType.defaultCtx).length ≤
    maxTabsForContext s.maxTabs ContextType.defaultCtx

/-! ## Concrete states used by witnesses and counterexamples -/

/-- A full queue at `maxQueueSize = 1`. -/
def fullQueueState : ScraperState :=
  { browserLaunched := true, ready := true,
    taskQueue := [{ id := 1, query := "minecraft",
                    searchEngine := SearchEngine.google,
                    cancelled := false, retries := 0 }],
    maxQueueSize := 1 }

/-- An idle, ready scraper with room in the queue. -/
def idleState : ScraperState :=
  { browserLaunched := true, ready := true, taskQueue := [],
    maxQueueSize := 1000 }

/-- A Google task used in concrete scenarios. -/
def gTaskA : GTask :=
  { id := 1, searchEngine := SearchEngine.google, cancelled := false,
    retries := 0, priority := NORMAL_PRIORITY }

/-- A second, newer Google task. -/
def gTaskB : GTask :=
  { id := 2, searchEngine := SearchEngine.google, cancelled := false,
    retries := 0, priority := NORMAL_PRIORITY }

/-- A scheduler state mid-reset with one queued Google task. -/
def resettingState : GState :=
  { taskQueue := [gTaskA], pendingGoogleTasks := [],
    googleContextResetting := true }

/-- A state in which `gTaskA` has been dispatched (shifted out of the
queue and bound to a tab) and is running, with nothing left queued. -/
def runningOnlyState : CState :=
  { taskQueue := [], running := [gTaskA] }

/-- The state reached from `initialPool 2` by `launchBrowser`, the
launch-time `createGoogleContext` seed, a second `createGoogleContext`
push (the recovery path after a transient connection error), and
acquiring both Google tabs: two busy Google workers above the Google
capacity of 1, and three tabs above the global cap of 2. -/
def overCapGooglePool : PoolState :=
  { maxTabs := 2,
    tabPool := [{ busy := false, contextType := ContextType.defaultCtx },
                { busy := true, contextType := ContextType.google },
                { busy := true, contextType := ContextType.google }] }

/-- The pool state right after browser initialization at `maxTabs = 4`. -/
def seededPool : PoolState :=
  { maxTabs := 4,
    tabPool := [{ busy := false, contextType := ContextType.defaultCtx },
                { busy := false, contextType := ContextType.google }] }

/-- An idle scheduler state of the final variant. -/
def emptyGState : GState :=
  { taskQueue := [], pendingGoogleTasks := [], googleContextResetting := false }

/-- A state mid-reset holding one boosted task while a newer task is
queued. -/
def heldState : GState :=
  { taskQueue := [gTaskB],
    pendingGoogleTasks :=
      [{ gTaskA with priority := GOOGLE_TASK_PRIORITY, retries := 0 }],
    googleContextResetting := true }

/-- A state about to start a reset, with one non-cancelled Google task
queued. -/
def preResetState : GState :=
  { taskQueue := [gTaskA], pendingGoogleTasks := [],
    googleContextResetting := false }

/-- A queue state holding only the newer task `gTaskB`, used while
`gTaskA` is running. -/
def newerQueuedState : GState :=
  { taskQueue := [gTaskB], pendingGoogleTasks := [],
    googleContextResetting := false }

/-- A tiny external URL parser for concrete runs: it recognises one
link. -/
def demoParseHost : String → Option String :=
  fun link => if link = "https://example.com/a" then some "example.com" else none

/-- A result page with one bad-URL entry between two good ones. -/
def demoEntries : List RawEntry :=
  [{ title := some "First", link := some "https://example.com/a",
     description := some "first hit" },
   { title := some "Bad", link := some "not a url",
     description := some "skipped" },
   { title := some "Second", link := some "https://example.com/a",
     description := some "second hit" }]

/-- The first record extracted from `demoEntries`. -/
def demoResult : SearchResult :=
  { domain := "example.com", title := "First", link := "https://example.com/a",
    description := "first hit", rank := 1 }

/-! # Theorems -/

/-- The ranks emitted by the extraction loop starting at `r` are the
consecutive run `r, r+1, ...` of length equal to the number of emitted
records. -/
theorem extractLoop_rank_map (parseHost : String → Option String) :
    ∀ (l : List RawEntry) (r : Nat),
      (extractLoop parseHost l r).map (fun res => res.rank) =
        List.range' r (extractLoop parseHost l r).length := by
  intro l
  induction l with
  | nil => intro r; simp [extractLoop]
  | cons e rest ih =>
    intro r
    simp only [extractLoop]
    split
    · split
      · split
        · simp only [List.map_cons, List.length_cons, List.range'_succ,
            List.cons.injEq]
          exact ⟨trivial, ih (r + 1)⟩
        · exact ih r
      · exact ih r
    · exact ih r

/-- Every record emitted by the extraction loop carries the hostname its
link parses to, and non-empty title, link and description. -/
theorem mem_extractLoop_valid (parseHost : String → Option String) :
    ∀ (l : List RawEntry) (r : Nat) (res : SearchResult),
      res ∈ extractLoop parseHost l r →
      parseHost res.link = some res.domain ∧
      res.title ≠ "" ∧ res.link ≠ "" ∧ res.description ≠ "" := by
  intro l
  induction l with
  | nil => intro r res h; simp [extractLoop] at h
  | cons e rest ih =>
    intro r res h
    simp only [extractLoop] at h
    split at h
    · split at h
      · rename_i hcond
        split at h
        · rename_i domain0 heq
          rcases List.mem_cons.mp h with hres | hres
          · subst hres
            exact ⟨heq, hcond.1, hcond.2.1, hcond.2.2⟩
          · exact ih (r + 1) res hres
        · exact ih r res h
      · exact ih r res h
    · exact ih r res h

/-- C4: for every successful result list, the `rank` fields are exactly
`1..N` with no gaps, assigned in page order, and an entry whose link
fails to parse as a URL is skipped without consuming a rank value. -/
theorem processGoogleResults_rank_contiguous
    (parseHost : String → Option String) (entries : List RawEntry)
    (e : RawEntry) (rest : List RawEntry) (r : Nat) (t l d : String)
    (he : e = { title := some t, link := some l, description := some d })
    (hskip : parseHost l = none) :
    ((processGoogleResults parseHost entries).map (fun res => res.rank) =
      List.range' 1 (processGoogleResults parseHost entries).length) ∧
    extractLoop parseHost (e :: rest) r = extractLoop parseHost rest r := by
  constructor
  · exact extractLoop_rank_map parseHost entries 1
  · subst he
    simp only [extractLoop]
    split
    · simp [hskip]
    · rfl

/-- Witness for C4 on a concrete page with a bad-URL entry between two
good ones. -/
theorem processGoogleResults_rank_contiguous_witness :
    ((demoEntries.get? 1 : Option RawEntry) =
      some { title := some "Bad", link := some "not a url",
             description := some "skipped" }) ∧
    demoParseHost "not a url" = none ∧
    ((processGoogleResults demoParseHost demoEntries).map
        (fun res => res.rank) =
      List.range' 1 (processGoogleResults demoParseHost demoEntries).length) ∧
    extractLoop demoParseHost
        ({ title := some "Bad", link := some "not a url",
           description := some "skipped" } :: []) 2 =
      extractLoop demoParseHost [] 2 :=
  ⟨rfl, rfl,
    processGoogleResults_rank_contiguous demoParseHost demoEntries
      { title := some "Bad", link := some "not a url",
        description := some "skipped" }
      [] 2 "Bad" "not a url" "skipped" rfl rfl⟩

/-- C10: every record in a resolved result list has a domain equal to the
hostname its link parses to (in particular the link parses as a URL), and
non-empty title, link and description. -/
theorem result_records_valid (parseHost : String → Option String)
    (entries : List RawEntry) (res : SearchResult)
    (h : res ∈ processGoogleResults parseHost entries ∨
         res ∈ processBingResults parseHost entries) :
    parseHost res.link = some res.domain ∧
    res.title ≠ "" ∧ res.link ≠ "" ∧ res.description ≠ "" := by
  rcases h with h | h
  · exact mem_extractLoop_valid parseHost entries 1 res h
  · exact mem_extractLoop_valid parseHost entries 1 res h

/-- Witness for C10 on the concrete page. -/
theorem result_records_valid_witness :
    (demoResult ∈ processGoogleResults demoParseHost demoEntries ∨
      demoResult ∈ processBingResults demoParseHost demoEntries) ∧
    (demoParseHost demoResult.link = some demoResult.domain ∧
      demoResult.title ≠ "" ∧ demoResult.link ≠ "" ∧
      demoResult.description ≠ "") :=
  ⟨Or.inl (by decide),
    result_records_valid demoParseHost demoEntries demoResult
      (Or.inl (by decide))⟩

/-- C1: with the browser present and the queue already holding
`maxQueueSize` tasks, `search` rejects synchronously with the queue-full
error, creates no task, and leaves the queue (indeed the whole state)
unchanged. -/
theorem search_rejects_when_queue_full (s : ScraperState) (query : String)
    (engine : SearchEngine) (newId : Nat)
    (hb : s.browserLaunched = true)
    (hq : s.taskQueue.length = s.maxQueueSize) :
    SERPScraperSearch s query engine newId =
      (s, SearchOutcome.rejected SearchError.queueFull) := by
  simp [SERPScraperSearch, hb, hq]

/-- Witness for C1 at `maxQueueSize = 1` with one queued task. -/
theorem search_rejects_when_queue_full_witness :
    fullQueueState.browserLaunched = true ∧
    fullQueueState.taskQueue.length = fullQueueState.maxQueueSize ∧
    SERPScraperSearch fullQueueState "another query" SearchEngine.bing 2 =
      (fullQueueState, SearchOutcome.rejected SearchError.queueFull) :=
  ⟨rfl, rfl,
    search_rejects_when_queue_full fullQueueState "another query"
      SearchEngine.bing 2 rfl rfl⟩

/-- C3: a task whose every execution fails transiently is attempted
exactly 3 times (1 initial + `MAX_RETRIES = 2` retries) and then rejected
with the max-retries message wrapping the last error (`errs 2`, the error
of the third attempt), regardless of any extra fuel. -/
theorem always_failing_task_three_attempts (errs : Nat → String)
    (tid : Nat) (query : String) (engine : SearchEngine) (extra : Nat) :
    runAlwaysFailing errs (extra + 3)
        { id := tid, query := query, searchEngine := engine,
          cancelled := false, retries := 0 } 0 =
      (3, some (maxRetriesMessage (errs 2))) := by
  rfl

/-- C7 evaluation: once a task has been shifted out of `taskQueue` and is
running, the `cancel` closure finds nothing and is a no-op — the task's
cancelled flag stays `false` and its execution still resolves
successfully, contradicting "any state → Cancelled" for the Running
state. -/
theorem cancel_is_noop_for_running_task :
    cancelClosure runningOnlyState gTaskA.id = runningOnlyState ∧
    gTaskA ∈ runningOnlyState.running ∧
    gTaskA.cancelled = false ∧
    executeSearchRun gTaskA false = ExecOutcome.resolved := by
  refine ⟨rfl, by decide, rfl, rfl⟩

/-- C8 counterexample: in the final variant a transient connection
failure of a non-cancelled task below the retry budget re-enqueues the
task at the BACK of the queue, behind the newer queued task — not at the
front. -/
theorem connection_retry_requeues_at_back :
    executeSearchOnConnectionError newerQueuedState gTaskA "Protocol error" =
      ({ newerQueuedState with
          taskQueue := [gTaskB, { gTaskA with retries := 1 }] }, none) ∧
    ([gTaskB, { gTaskA with retries := 1 }] : List GTask) ≠
      [{ gTaskA with retries := 1 }, gTaskB] := by
  refine ⟨rfl, by decide⟩

/-- C8 (amended): in the final variant, a Running task failing with a
transient connection error while `retries < MAX_RETRIES` and not
cancelled has its retry counter incremented and is appended to the back
of the queue, with no rejection. -/
theorem connection_retry_increments_and_appends (s : GState) (task : GTask)
    (errMsg : String)
    (hc : task.cancelled = false) (hr : task.retries < MAX_RETRIES) :
    executeSearchOnConnectionError s task errMsg =
      ({ s with taskQueue := s.taskQueue ++
          [{ task with retries := task.retries + 1 }] }, none) := by
  simp [executeSearchOnConnectionError, hc, hr]

/-- Witness for the amended C8. -/
theorem connection_retry_increments_and_appends_witness :
    gTaskA.cancelled = false ∧ gTaskA.retries < MAX_RETRIES ∧
    executeSearchOnConnectionError emptyGState gTaskA "Target closed" =
      ({ emptyGState with taskQueue := [{ gTaskA with retries := 1 }] },
        none) :=
  ⟨rfl, by decide,
    connection_retry_increments_and_appends emptyGState gTaskA
      "Target closed" rfl (by decide)⟩

/-- C9 counterexample: `SERPScraper.search` performs no input
validation — an empty query is admitted, a task is created and enqueued,
and the call does not fail. -/
theorem search_admits_empty_query :
    SERPScraperSearch idleState "" SearchEngine.google 1 =
      ({ idleState with taskQueue :=
          [{ id := 1, query := "", searchEngine := SearchEngine.google,
             cancelled := false, retries := 0 }] },
        SearchOutcome.enqueued 1) := by
  rfl

/-- C9 (amended): input validation lives in the HTTP admission layer —
for an empty query or an unsupported provider the controller rejects
synchronously with the schema issues (a distinct 400 error), the scraper
is never called and no task is created. -/
theorem controller_rejects_invalid_input (s : ScraperState)
    (query provider : String) (newId : Nat)
    (h : query = "" ∨ provider ∉ supportedProviders) :
    controllerSearch s query provider newId =
      (s, ControllerResponse.badRequest (searchSchemaIssues query provider)) ∧
    searchSchemaIssues query provider ≠ [] ∧
    (query = "" →
      SchemaIssue.queryEmpty ∈ searchSchemaIssues query provider) ∧
    (provider ∉ supportedProviders →
      SchemaIssue.invalidProvider ∈ searchSchemaIssues query provider) := by
  have hne : searchSchemaIssues query provider ≠ [] := by
    rcases h with h | h
    · subst h; simp [searchSchemaIssues]
    · simp [searchSchemaIssues, h]
  refine ⟨?_, hne, ?_, ?_⟩
  · simp [controllerSearch, hne]
  · intro hqe; subst hqe; simp [searchSchemaIssues]
  · intro hp; simp [searchSchemaIssues, hp]

/-- Witness for the amended C9: the empty query is rejected before the
scraper is touched. -/
theorem controller_rejects_invalid_input_witness :
    (("" : String) = "" ∨ ("" : String) ∉ supportedProviders) ∧
    controllerSearch idleState "" "google" 3 =
      (idleState, ControllerResponse.badRequest
        (searchSchemaIssues "" "google")) ∧
    searchSchemaIssues "" "google" ≠ [] ∧
    SchemaIssue.queryEmpty ∈ searchSchemaIssues "" "google" :=
  have happ := controller_rejects_invalid_input idleState "" "google" 3
    (Or.inl rfl)
  ⟨Or.inl rfl, happ.1, happ.2.1, happ.2.2.1 rfl⟩

/-- C5: while a Session reset is running, a second reset trigger is a
no-op (single-flight), and a dispatch pass that reaches a Google task
puts it back at the front of the queue and stops without dispatching
anything. -/
theorem reset_single_flight_and_dispatch_skip (s : GState) (t : GTask)
    (rest : List GTask)
    (hreset : s.googleContextResetting = true)
    (hhead : (sortByPriority s.taskQueue).filter
        (fun task => task.cancelled = false) = t :: rest)
    (hgoogle : t.searchEngine = SearchEngine.google) :
    beginResetGoogleContext s = s ∧
    processQueueStep s =
      ({ s with taskQueue := t :: rest }, DispatchResult.blockedOnReset t) := by
  constructor
  · simp [beginResetGoogleContext, hreset]
  · have hh : (sortByPriority s.taskQueue).filter
        (fun task => !task.cancelled) = t :: rest := by
      simpa using hhead
    simp [processQueueStep, hh, hgoogle, hreset]

/-- Witness for C5 on a mid-reset state with one queued Google task. -/
theorem reset_single_flight_and_dispatch_skip_witness :
    resettingState.googleContextResetting = true ∧
    (sortByPriority resettingState.taskQueue).filter
        (fun task => task.cancelled = false) = [gTaskA] ∧
    gTaskA.searchEngine = SearchEngine.google ∧
    beginResetGoogleContext resettingState = resettingState ∧
    processQueueStep resettingState =
      ({ resettingState with taskQueue := [gTaskA] },
        DispatchResult.blockedOnReset gTaskA) :=
  have happ := reset_single_flight_and_dispatch_skip resettingState gTaskA []
    rfl (by decide) rfl
  ⟨rfl, by decide, rfl, happ.1, happ.2⟩

/-- C6: a blocked/captcha failure of a Running Google task settles
nothing (the outcome is `held`, neither resolved nor rejected); the task
enters the holding area with `retries` reset to 0; finishing the recovery
re-enqueues the held, non-cancelled tasks at the front of the queue and
empties the holding area; and every task the reset drains into the
holding area has `retries = 0`. -/
theorem captcha_task_held_not_settled (s : GState) (task : GTask)
    (s2 s3 : GState) (t : GTask)
    (hg : task.searchEngine = SearchEngine.google)
    (hc : task.cancelled = false)
    (ht : t ∈ (beginResetGoogleContext s3).pendingGoogleTasks) :
    executeSearchCaptchaBranch s task true =
      some ({ s with pendingGoogleTasks := s.pendingGoogleTasks ++
          [{ task with priority := GOOGLE_TASK_PRIORITY, retries := 0 }] },
        ExecOutcome.held) ∧
    ({ task with priority := GOOGLE_TASK_PRIORITY, retries := 0 }
      : GTask).retries = 0 ∧
    (finishResetGoogleContext s2).taskQueue =
      (s2.pendingGoogleTasks.filter (fun u => u.cancelled = false))
        ++ s2.taskQueue ∧
    (finishResetGoogleContext s2).pendingGoogleTasks = [] ∧
    (t ∈ s3.pendingGoogleTasks ∨ t.retries = 0) := by
  refine ⟨?_, rfl, rfl, rfl, ?_⟩
  · simp [executeSearchCaptchaBranch, hg, hc]
  · by_cases hr : s3.googleContextResetting = true
    · left
      simpa [beginResetGoogleContext, hr] using ht
    · simp only [beginResetGoogleContext, hr, if_false, Bool.false_eq_true,
        if_neg, List.mem_append, List.mem_map] at ht
      rcases ht with h | h
      · exact Or.inl h
      · rcases h with ⟨x, _, hxe⟩
        right
        rw [← hxe]

/-- Witness for C6 on concrete states. -/
theorem captcha_task_held_not_settled_witness :
    gTaskA.searchEngine = SearchEngine.google ∧
    gTaskA.cancelled = false ∧
    ({ gTaskA with priority := GOOGLE_TASK_PRIORITY, retries := 0 }
      : GTask) ∈
      (beginResetGoogleContext preResetState).pendingGoogleTasks ∧
    executeSearchCaptchaBranch emptyGState gTaskA true =
      some ({ emptyGState with pendingGoogleTasks :=
          [{ gTaskA with priority := GOOGLE_TASK_PRIORITY, retries := 0 }] },
        ExecOutcome.held) ∧
    (finishResetGoogleContext heldState).taskQueue =
      (heldState.pendingGoogleTasks.filter (fun u => u.cancelled = false))
        ++ heldState.taskQueue ∧
    (finishResetGoogleContext heldState).pendingGoogleTasks = [] ∧
    (({ gTaskA with priority := GOOGLE_TASK_PRIORITY, retries := 0 }
        : GTask) ∈ preResetState.pendingGoogleTasks ∨
      ({ gTaskA with priority := GOOGLE_TASK_PRIORITY, retries := 0 }
        : GTask).retries = 0) :=
  have happ := captcha_task_held_not_settled emptyGState gTaskA heldState
    preResetState
    { gTaskA with priority := GOOGLE_TASK_PRIORITY, retries := 0 }
    rfl rfl (by decide)
  ⟨rfl, rfl, by decide, happ.1, happ.2.2.1, happ.2.2.2.1, happ.2.2.2.2⟩

/-- Splitting a per-type tab count over an append. -/
theorem tabsOfType_append (a b : List Tab) (ct : ContextType) :
    tabsOfType (a ++ b) ct = tabsOfType a ct ++ tabsOfType b ct := by
  simp [tabsOfType]

/-- Per-type tab count of a cons cell. -/
theorem tabsOfType_cons_length (t : Tab) (l : List Tab) (ct : ContextType) :
    (tabsOfType (t :: l) ct).length =
      (if t.contextType = ct then 1 else 0) + (tabsOfType l ct).length := by
  by_cases h : t.contextType = ct
  · simp [tabsOfType, List.filter_cons, h]
    omega
  · simp [tabsOfType, List.filter_cons, h]

/-- A sublist of the pool has at most as many tabs of each type. -/
theorem tabsOfType_length_le_of_sublist {a b : List Tab}
    (h : a.Sublist b) (ct : ContextType) :
    (tabsOfType a ct).length ≤ (tabsOfType b ct).length :=
  ((h.filter _).length_le : _)

/-- The busy tabs of one type are the busy ones among the tabs of that
type. -/
theorem busyTabsOfType_eq_filter (pool : List Tab) (ct : ContextType) :
    busyTabsOfType pool ct = (tabsOfType pool ct).filter (fun t => t.busy) := by
  simp only [busyTabsOfType, tabsOfType, List.filter_filter]
  congr 1
  funext t
  by_cases h1 : t.contextType = ct <;> by_cases h2 : t.busy = true <;>
    simp [h1, h2]

/-- The busy tabs of one type are among the tabs of that type. -/
theorem busyTabsOfType_length_le (pool : List Tab) (ct : ContextType) :
    (busyTabsOfType pool ct).length ≤ (tabsOfType pool ct).length := by
  rw [busyTabsOfType_eq_filter]
  exact List.length_filter_le _ _

/-- Every pool transition preserves the default-context capacity
bound. -/
theorem poolInv_step {s s' : PoolState} (hinv : PoolInv s)
    (hstep : PoolStep s s') : PoolInv s' := by
  simp only [PoolInv] at hinv ⊢
  cases hstep with
  | createTab ct h =>
    dsimp only
    rw [tabsOfType_append, List.length_append]
    by_cases hc : ct = ContextType.defaultCtx
    · subst hc
      have h1 : (tabsOfType
          [{ busy := false, contextType := ContextType.defaultCtx }]
          ContextType.defaultCtx).length = 1 := by
        simp [tabsOfType, List.filter_cons]
      omega
    · have h1 : (tabsOfType [{ busy := false, contextType := ct }]
          ContextType.defaultCtx).length = 0 := by
        simp [tabsOfType, List.filter_cons, hc]
      omega
  | markBusy l₁ l₂ ct h =>
    rw [h] at hinv
    dsimp only
    rw [tabsOfType_append, List.length_append, tabsOfType_cons_length]
      at hinv ⊢
    dsimp only at hinv ⊢
    omega
  | release l₁ l₂ ct h =>
    rw [h] at hinv
    dsimp only
    rw [tabsOfType_append, List.length_append, tabsOfType_cons_length]
      at hinv ⊢
    dsimp only at hinv ⊢
    omega
  | launchBrowser =>
    simp [tabsOfType, List.filter_cons, maxTabsForContext, Nat.le_max_left]
  | createGoogleContext =>
    dsimp only
    rw [tabsOfType_append, List.length_append]
    have h1 : (tabsOfType
        [{ busy := false, contextType := ContextType.google }]
        ContextType.defaultCtx).length = 0 := by
      simp [tabsOfType, List.filter_cons]
    omega
  | resetGoogleContext =>
    have hsub := tabsOfType_length_le_of_sublist
      (List.filter_sublist s.tabPool
        (p := fun t => decide (¬ t.contextType = ContextType.google)))
      ContextType.defaultCtx
    exact le_trans hsub hinv
  | closeTab l₁ l₂ t h =>
    rw [h] at hinv
    have hsub : (l₁ ++ l₂).Sublist (l₁ ++ t :: l₂) :=
      (List.sublist_cons_self t l₂).append_left l₁
    exact le_trans (tabsOfType_length_le_of_sublist hsub
      ContextType.defaultCtx) hinv
  | closeBrowser =>
    simp [tabsOfType]

/-- Every state reachable from the constructor's state satisfies the
default-context capacity bound. -/
theorem poolInv_reachable {m : Nat} {s : PoolState}
    (h : PoolReachable m s) : PoolInv s := by
  induction h with
  | refl => simp [PoolInv, initialPool, tabsOfType]
  | tail _ hstep ih => exact poolInv_step ih hstep

/-- C2 (amended): in every reachable pool state the busy workers of the
default Session stay within its configured capacity
`max(1, maxTabs - floor(maxTabs/2))`, because default tabs are created
only through `getAvailableTab`'s guarded path and the launch seed.  The
Google Session's capacity and the global `maxTabs` bound are NOT
invariants of the code: `createGoogleContext` pushes a Google tab with no
capacity check and no stale-tab removal, and is reached from the recovery
and context-revalidation paths — see the counterexample. -/
theorem pool_capacity_invariant (m : Nat) (s : PoolState)
    (h : PoolReachable m s) :
    (busyTabsOfType s.tabPool ContextType.defaultCtx).length ≤
      maxTabsForContext s.maxTabs ContextType.defaultCtx :=
  le_trans (busyTabsOfType_length_le s.tabPool ContextType.defaultCtx)
    (poolInv_reachable h)

/-- Witness for the amended C2 on the freshly seeded pool at
`maxTabs = 4`. -/
theorem pool_capacity_invariant_witness :
    PoolReachable 4 seededPool ∧
    (busyTabsOfType seededPool.tabPool ContextType.defaultCtx).length ≤
      maxTabsForContext seededPool.maxTabs ContextType.defaultCtx :=
  have hreach : PoolReachable 4 seededPool :=
    Relation.ReflTransGen.head (PoolStep.launchBrowser (initialPool 4))
      (Relation.ReflTransGen.single (PoolStep.createGoogleContext
        { maxTabs := 4,
          tabPool :=
            [{ busy := false, contextType := ContextType.defaultCtx }] }))
  ⟨hreach, pool_capacity_invariant 4 seededPool hreach⟩

/-- C2 counterexample: at `maxTabs = 2` (Google capacity 1) a reachable
state has two busy Google workers — above the Google Session's
capacity — and three tabs in total — above the global cap.  Trace:
browser launch seeds the default tab; `createGoogleContext` runs once at
launch and once more from `recoveryCheck` after a transient connection
error (its push is unguarded); both free Google tabs are then acquired
by the dispatcher. -/
theorem pool_exceeds_session_and_global_cap :
    PoolReachable 2 overCapGooglePool ∧
    maxTabsForContext overCapGooglePool.maxTabs ContextType.google = 1 ∧
    (busyTabsOfType overCapGooglePool.tabPool
      ContextType.google).length = 2 ∧
    overCapGooglePool.maxTabs = 2 ∧
    overCapGooglePool.tabPool.length = 3 := by
  refine ⟨?_, rfl, by decide, rfl, rfl⟩
  have h1 : PoolStep (initialPool 2)
      { maxTabs := 2,
        tabPool :=
          [{ busy := false, contextType := ContextType.defaultCtx }] } :=
    PoolStep.launchBrowser (initialPool 2)
  have h2 : PoolStep
      { maxTabs := 2,
        tabPool :=
          [{ busy := false, contextType := ContextType.defaultCtx }] }
      { maxTabs := 2,
        tabPool := [{ busy := false, contextType := ContextType.defaultCtx },
                    { busy := false, contextType := ContextType.google }] } :=
    PoolStep.createGoogleContext _
  have h3 : PoolStep
      { maxTabs := 2,
        tabPool := [{ busy := false, contextType := ContextType.defaultCtx },
                    { busy := false, contextType := ContextType.google }] }
      { maxTabs := 2,
        tabPool := [{ busy := false, contextType := ContextType.defaultCtx },
                    { busy := false, contextType := ContextType.google },
                    { busy := false, contextType := ContextType.google }] } :=
    PoolStep.createGoogleContext _
  have h4 : PoolStep
      { maxTabs := 2,
        tabPool := [{ busy := false, contextType := ContextType.defaultCtx },
                    { busy := false, contextType := ContextType.google },
                    { busy := false, contextType := ContextType.google }] }
      { maxTabs := 2,
        tabPool := [{ busy := false, contextType := ContextType.defaultCtx },
                    { busy := true, contextType := ContextType.google },
                    { busy := false, contextType := ContextType.google }] } :=
    PoolStep.markBusy _
      [{ busy := false, contextType := ContextType.defaultCtx }]
      [{ busy := false, contextType := ContextType.google }]
      ContextType.google rfl
  have h5 : PoolStep
      { maxTabs := 2,
        tabPool := [{ busy := false, contextType := ContextType.defaultCtx },
                    { busy := true, contextType := ContextType.google },
                    { busy := false, contextType := ContextType.google }] }
      overCapGooglePool :=
    PoolStep.markBusy _
      [{ busy := false, contextType := ContextType.defaultCtx },
       { busy := true, contextType := ContextType.google }] []
      ContextType.google rfl
  exact Relation.ReflTransGen.head h1
    (Relation.ReflTransGen.head h2
      (Relation.ReflTransGen.head h3
        (Relation.ReflTransGen.head h4
          (Relation.ReflTransGen.single h5))))

end Serp
